import Mathlib

/-!
Verification of the citation detection, literature resolution and report
orchestration pipeline of the legal-assistant backend.

Modelling conventions:
* JavaScript strings are modelled as `List Char` (`Str`); `.length`, `.slice`,
  `.trim` and the regular expressions used by the source are modelled directly
  over character lists.  JavaScript whitespace is modelled for the characters
  that occur in practice (space, tab, newline, carriage return, form feed,
  vertical tab, no-break space).
* `null`/`undefined` are modelled as `Option.none`; the JavaScript `??`
  operator becomes `Option.getD`/`<|>`, and JavaScript truthiness on strings
  (empty string is falsy) and numbers (zero is falsy) is modelled explicitly.
* Network calls (the two bibliographic providers and the text-generation
  provider) are oracles passed as function parameters; a thrown exception is
  an `Except.error` value.  `crypto.randomUUID()` is nondeterministic and is
  modelled as a supplier parameter.
* Hebrew string literals from the source (prompt scaffolding, user-facing
  fallback texts) are represented by distinct ASCII placeholder constants:
  no claim depends on their exact content, only on which constant is chosen.
* Environment-variable overrides of numeric limits are deployment
  configuration; the model uses the source defaults.
-/

/-- JavaScript strings modelled as lists of characters. -/
abbrev Str := List Char

/-- Convert a Lean string literal to the model representation. -/
def str (s : String) : Str := s.data

/-- Whitespace as matched by JavaScript `\s` / `String.prototype.trim`
(modelled for the characters occurring in this code base). -/
def isSpaceJS (c : Char) : Bool :=
  c = ' ' || c = '\t' || c = '\n' || c = '\r' ||
  c = Char.ofNat 11 || c = Char.ofNat 12 || c = Char.ofNat 160

/-- JavaScript `\w` (ASCII word character). -/
def isWordChar (c : Char) : Bool := c.isAlpha || c.isDigit || c = '_'

/-- `String.prototype.trim`. -/
def jsTrim (l : Str) : Str :=
  ((l.dropWhile isSpaceJS).reverse.dropWhile isSpaceJS).reverse

/-- Drop the `\n+` continuation of a line separator (`split(/\r?\n+/)`). -/
def dropNl (l : Str) : Str := l.dropWhile (fun c => c = '\n')

/-- `text.split(/\r?\n+/)`, fuelled so that it evaluates by kernel reduction:
each separator is an optional `\r` followed by a maximal nonempty run of
`\n`.  The fuel is the length of the input, which one character per step
makes sufficient. -/
def splitLinesAux : Nat → Str → List Str
  | _, [] => [[]]
  | 0, l => [l]
  | fuel + 1, '\r' :: '\n' :: rest => [] :: splitLinesAux fuel (dropNl rest)
  | fuel + 1, '\n' :: rest => [] :: splitLinesAux fuel (dropNl rest)
  | fuel + 1, c :: rest =>
    match splitLinesAux fuel rest with
    | [] => [[c]]
    | piece :: pieces => (c :: piece) :: pieces

/-- `text.split(/\r?\n+/)`. -/
def splitLinesJS (l : Str) : List Str := splitLinesAux l.length l

/-- Numeric value of an ASCII digit. -/
def digitVal (c : Char) : Nat := c.toNat - 48

/-- Is there a boundary (`\b`) between `prev` and a word character? -/
def boundaryOk (prev : Option Char) : Bool :=
  match prev with
  | none => true
  | some p => !(isWordChar p)

/-- Does `/\b(19|20)\d{2}\b/` match at the head of `l` (with `prev` the
character immediately before `l`)?  Returns the year value on success. -/
def yearAt (prev : Option Char) (l : Str) : Option Nat :=
  match l with
  | c1 :: c2 :: c3 :: c4 :: rest =>
    if ((c1 = '1' && c2 = '9') || (c1 = '2' && c2 = '0')) &&
        c3.isDigit && c4.isDigit && boundaryOk prev && boundaryOk rest.head? then
      some (digitVal c1 * 1000 + digitVal c2 * 100 + digitVal c3 * 10 + digitVal c4)
    else
      none
  | _ => none

/-- First match of the year regex `/\b(19|20)\d{2}\b/`, as the parsed year
(`Number.parseInt(yearMatch[0], 10)`); `none` when `test` fails. -/
def findYear (prev : Option Char) : Str → Option Nat
  | [] => none
  | c :: rest =>
    match yearAt prev (c :: rest) with
    | some y => some y
    | none => findYear (some c) rest

/-- The four quote characters recognised by `guessTitleFromCitation`,
with their closing counterparts. -/
def quoteClose (c : Char) : Option Char :=
  if c = Char.ofNat 0x201C then some (Char.ofNat 0x201D)
  else if c = '"' then some '"'
  else if c = Char.ofNat 0x2018 then some (Char.ofNat 0x2019)
  else if c = Char.ofNat 39 then some (Char.ofNat 39)
  else none

/-- First match group of `/“([^”]+)”|"([^"]+)"|‘([^’]+)’|'([^']+)'/`. -/
def findQuoted : Str → Option Str
  | [] => none
  | c :: rest =>
    match quoteClose c with
    | some close =>
      let content := rest.takeWhile (fun x => x ≠ close)
      if content ≠ [] && rest.dropWhile (fun x => x ≠ close) ≠ [] then some content
      else findQuoted rest
    | none => findQuoted rest

/-- Collapse `/\s+/g` runs into single spaces (fuelled by the input length,
which one character per step makes sufficient). -/
def collapseWsAux : Nat → Str → Str
  | _, [] => []
  | 0, l => l
  | fuel + 1, c :: rest =>
    if isSpaceJS c then ' ' :: collapseWsAux fuel (rest.dropWhile isSpaceJS)
    else c :: collapseWsAux fuel rest

/-- `value.replace(/\s+/g, " ")`. -/
def collapseWs (l : Str) : Str := collapseWsAux l.length l

/-- `normalizeWhitespace` from the source:
`value.replace(/\s+/g, " ").trim()`. -/
def normalizeWhitespace (v : Str) : Str := jsTrim (collapseWs v)

/-- Captured group of `/\)\s*([^\.]+)\./` at a position where `seg` is the
nonempty run of non-period characters following the `)`: greedy `\s*` yields
as much whitespace as possible while keeping `[^\.]+` nonempty. -/
def groupOfSeg (seg : Str) : Str :=
  let t := seg.dropWhile isSpaceJS
  if t = [] then seg.drop (seg.length - 1) else t

/-- First match group of `/\)\s*([^\.]+)\./`. -/
def findAfterParen : Str → Option Str
  | [] => none
  | c :: rest =>
    if c = ')' then
      let seg := rest.takeWhile (fun x => x ≠ '.')
      if seg ≠ [] && rest.dropWhile (fun x => x ≠ '.') ≠ [] then some (groupOfSeg seg)
      else findAfterParen rest
    else findAfterParen rest

/-- `guessTitleFromCitation` from the source. -/
def guessTitleFromCitation (value : Str) : Option Str :=
  match findQuoted value with
  | some q => some q
  | none =>
    match findAfterParen value with
    | some g => if g.length > 8 then some (normalizeWhitespace g) else none
    | none => none

/-- ASCII upper-case letter (`[A-Z]`). -/
def isUpperAZ (c : Char) : Bool := 'A' ≤ c && c ≤ 'Z'

/-- The character class `[A-Za-z\s&-]` of the journal regex. -/
def isJournalCls (c : Char) : Bool := c.isAlpha || isSpaceJS c || c = '&' || c = '-'

/-- Does `\s+\d{4}` match at the head of `after`? -/
def spacesThenFourDigits (after : Str) : Bool :=
  let w := after.takeWhile isSpaceJS
  let d := after.dropWhile isSpaceJS
  w ≠ [] && (d.take 4).length = 4 && (d.take 4).all Char.isDigit

/-- Greedy-with-backtracking body of `([A-Z][A-Za-z\s&-]+)\s+\d{4}`: try body
lengths from `m` down to `1`. -/
def tryJournalBody (c : Char) (rest : Str) : Nat → Option Str
  | 0 => none
  | m + 1 =>
    if spacesThenFourDigits (rest.drop (m + 1)) then some (c :: rest.take (m + 1))
    else tryJournalBody c rest m

/-- Match the captured group `[A-Z][A-Za-z\s&-]+` followed by `\s+\d{4}`
starting exactly here. -/
def journalGroupAt : Str → Option Str
  | [] => none
  | c :: rest =>
    if isUpperAZ c then tryJournalBody c rest (rest.takeWhile isJournalCls).length
    else none

/-- First match group of `/\.?\s*([A-Z][A-Za-z\s&-]+)\s+\d{4}/`: the optional
dot and `\s*` prefix let a match begin at any position whose dot/space prefix
leads to the capital that starts the group. -/
def findJournalGroup : Str → Option Str
  | [] => none
  | c :: rest =>
    let tailPart := if c = '.' then rest else c :: rest
    match journalGroupAt (tailPart.dropWhile isSpaceJS) with
    | some g => some g
    | none => findJournalGroup rest

/-! ## Citation detector (`medicalLiteratureService.detectReferenceCandidates`) -/

/-- `CitationCandidate` from the source. -/
structure CitationCandidate where
  id : Str
  rawText : Str
  sourceDocumentId : Option Str := none
  sourceDocumentName : Option Str := none
  titleGuess : Option Str := none
  journalGuess : Option Str := none
  year : Option Nat := none
deriving DecidableEq, Repr

/-- `DetectionOptions` from the source. -/
structure DetectionOptions where
  limit : Option Nat := none
  sourceDocumentId : Option Str := none
  sourceDocumentName : Option Str := none

def DEFAULT_DETECTION_LIMIT : Nat := 6

/-- JavaScript truthiness of an optional string (`undefined` and `""` are
falsy). -/
def truthyS : Option Str → Bool
  | some s => s ≠ []
  | none => false

/-- JavaScript truthiness of an optional number (`undefined` and `0` are
falsy). -/
def truthyN : Option Nat → Bool
  | some n => n ≠ 0
  | none => false

/-- Build one `CitationCandidate` from a qualifying line, mirroring the object
literal in the source.  `freshId` supplies the `crypto.randomUUID()` value for
the given line index. -/
def mkCandidate (options : Option DetectionOptions) (freshId : Nat → Str)
    (index : Nat) (line : Str) : CitationCandidate :=
  let docId := (options.bind (·.sourceDocumentId)).getD (str "doc")
  let titleGuess := guessTitleFromCitation line
  let journalGuess :=
    match findJournalGroup line with
    | some g => if g ≠ [] ∧ g.length > 5 then some (normalizeWhitespace g) else none
    | none => none
  { id := docId ++ [Char.ofNat 45] ++ (toString index).data ++ [Char.ofNat 45] ++ freshId index
    rawText := line
    sourceDocumentId := options.bind (·.sourceDocumentId)
    sourceDocumentName := options.bind (·.sourceDocumentName)
    titleGuess := titleGuess
    journalGuess := journalGuess
    year := findYear none line }

/-- The scanning loop of `detectReferenceCandidates`: walk the nonblank
trimmed lines in order, qualify by year regex and length, and stop once the
requested count is reached. -/
def detectLoop (options : Option DetectionOptions) (freshId : Nat → Str)
    (limit : Nat) : Nat → List Str → List CitationCandidate → List CitationCandidate
  | _, [], acc => acc
  | index, line :: rest, acc =>
    if acc.length ≥ limit then acc
    else if !(findYear none line).isSome || line.length < 20 then
      detectLoop options freshId limit (index + 1) rest acc
    else
      detectLoop options freshId limit (index + 1) rest (acc ++ [mkCandidate options freshId index line])

/-- `detectReferenceCandidates` from the source.  `text` is
`string | null | undefined`; the leading `if (!text)` also catches the empty
string. -/
def detectReferenceCandidates (text : Option Str) (options : Option DetectionOptions)
    (freshId : Nat → Str) : List CitationCandidate :=
  if !truthyS text then []
  else
    let limit := (options.bind (·.limit)).getD DEFAULT_DETECTION_LIMIT
    let lines := ((splitLinesJS (text.getD [])).map jsTrim).filter (fun l => l ≠ [])
    detectLoop options freshId limit 0 lines []

/-! ## Prompt truncation (`cases.ts` `truncateForPrompt`) -/

def PROMPT_DOCUMENT_CHAR_LIMIT : Nat := 6000

/-- The marker appended by `truncateForPrompt`:
`"\n\n[Truncated for AI prompt]"`. -/
def truncationMarker : Str := str "\n\n[Truncated for AI prompt]"

/-- The placeholder returned for absent text:
`"[No extracted text available]"`. -/
def noTextPlaceholder : Str := str "[No extracted text available]"

/-- `truncateForPrompt` from the source; the leading `if (!text)` also
catches the empty string. -/
def truncateForPrompt (text : Option Str) (limit : Nat := PROMPT_DOCUMENT_CHAR_LIMIT) : Str :=
  if !truthyS text then noTextPlaceholder
  else
    let t := text.getD []
    if t.length ≤ limit then t
    else t.take limit ++ truncationMarker

/-! ## Literature resolver (`medicalLiteratureService.resolveLiteratureReferences`)

The two bibliographic providers are network calls; they are modelled as
oracles `fetchSS`/`fetchCR` mapping a query string to
`Except Unit (Option record)`, where `Except.error` is a thrown exception
(fetch or JSON parsing failure) and `Except.ok none` is a non-ok response or
an empty result list.  The mapping from the raw provider record to a
`ResolvedLiteratureItem` is translated from the source bodies of
`querySemanticScholar` and `queryCrossref`. -/

/-- Provider tag (`"semantic-scholar" | "crossref"`). -/
inductive LiteratureSource where
  | semanticScholar
  | crossref
deriving DecidableEq, Repr

/-- `ResolvedLiteratureItem` from the source. -/
structure ResolvedLiteratureItem where
  id : Str
  title : Str
  abstract : Option Str := none
  journal : Option Str := none
  year : Option Nat := none
  authors : Option (List Str) := none
  url : Option Str := none
  source : LiteratureSource
  matchedCitation : CitationCandidate
deriving DecidableEq, Repr

/-- `LiteratureSearchResult` from the source. -/
structure LiteratureSearchResult where
  resolved : List ResolvedLiteratureItem
  unresolved : List CitationCandidate
deriving DecidableEq, Repr

/-- `ResolveOptions` from the source. -/
structure ResolveOptions where
  limit : Option Nat := none
  semanticScholarApiKey : Option Str := none

def DEFAULT_RESOLVE_LIMIT : Nat := 8

/-- `buildQueryFromCitation` from the source (JavaScript truthiness: an empty
`titleGuess` or a zero/absent `year` falls through). -/
def buildQueryFromCitation (candidate : CitationCandidate) : Str :=
  if truthyS candidate.titleGuess then candidate.titleGuess.getD []
  else if truthyS candidate.journalGuess && truthyN candidate.year then
    candidate.journalGuess.getD [] ++ [' '] ++ (toString (candidate.year.getD 0)).data
  else candidate.rawText.take 240

/-- The first Semantic Scholar search hit, as consumed by the source
(`data?.data?.[0]` with the requested fields). -/
structure SSRecord where
  paperId : Option Str := none
  title : Option Str := none
  abstract : Option Str := none
  venue : Option Str := none
  publicationVenueName : Option Str := none
  year : Option Nat := none
  authors : Option (List (Option Str)) := none
  url : Option Str := none
  doi : Option Str := none

/-- Map a Semantic Scholar record to a `ResolvedLiteratureItem`
(the return object literal of `querySemanticScholar`); `uuidv` models
`crypto.randomUUID()`. -/
def mapSemanticScholar (rec : SSRecord) (query : Str) (candidate : CitationCandidate)
    (uuidv : Str) : ResolvedLiteratureItem :=
  { id := rec.paperId.getD (rec.doi.getD uuidv)
    title := rec.title.getD query
    abstract := rec.abstract
    journal := rec.venue <|> rec.publicationVenueName
    year := rec.year <|> candidate.year
    authors := rec.authors.map (fun l => (l.filterMap id).filter (fun n => n ≠ []))
    url := rec.url <|> (match rec.doi with
      | some d => if d ≠ [] then some (str "https://doi.org/" ++ d) else none
      | none => none)
    source := .semanticScholar
    matchedCitation := candidate }

/-- `querySemanticScholar` over the fetch oracle: an exception propagates, a
non-ok response or empty result list is `none`, a hit is mapped.  The API-key
argument only affects request headers in the source and is retained for
signature fidelity. -/
def querySemanticScholar (fetchSS : Str → Except Unit (Option SSRecord))
    (uuidv : Str) (query : Str) (candidate : CitationCandidate)
    (_apiKey : Option Str) : Except Unit (Option ResolvedLiteratureItem) :=
  match fetchSS query with
  | .error e => .error e
  | .ok none => .ok none
  | .ok (some rec) => .ok (some (mapSemanticScholar rec query candidate uuidv))

/-- One Crossref author entry (`{given, family}`). -/
structure CRAuthor where
  given : Option Str := none
  family : Option Str := none

/-- The first Crossref work item, as consumed by the source
(`data?.message?.items?.[0]` with the selected fields).  `abstract` is
`some` only when the field is a string; `issuedYear` is
`issued?.["date-parts"]?.[0]?.[0]`. -/
structure CRRecord where
  doi : Option Str := none
  title : Option (List Str) := none
  author : Option (List CRAuthor) := none
  issuedYear : Option Nat := none
  containerTitle : Option (List Str) := none
  abstract : Option Str := none
  url : Option Str := none

/-- One step of the global replace `/<\/?jats:[^>]+>/g`: match a jats tag at
the head of `l` and return the remainder. -/
def matchJatsTag (l : Str) : Option Str :=
  match l with
  | '<' :: t =>
    let t2 := if t.head? = some '/' then t.tail else t
    if (str "jats:").isPrefixOf t2 then
      let t3 := t2.drop 5
      let body := t3.takeWhile (fun c => c ≠ '>')
      if body ≠ [] && t3.dropWhile (fun c => c ≠ '>') ≠ [] then
        some ((t3.dropWhile (fun c => c ≠ '>')).drop 1)
      else none
    else none
  | _ => none

/-- `abstract.replace(/<\/?jats:[^>]+>/g, "")` (fuelled by the input length,
which one character per step makes sufficient). -/
def stripJatsAux : Nat → Str → Str
  | _, [] => []
  | 0, l => l
  | fuel + 1, c :: rest =>
    match matchJatsTag (c :: rest) with
    | some r => stripJatsAux fuel r
    | none => c :: stripJatsAux fuel rest

def stripJats (l : Str) : Str := stripJatsAux l.length l

/-- The author-name construction of `queryCrossref`:
`[given, family].filter(Boolean).join(" ").trim()`. -/
def crAuthorName (a : CRAuthor) : Str :=
  jsTrim (List.intercalate [' '] (([a.given, a.family].filterMap id).filter (fun s => s ≠ [])))

/-- Map a Crossref work item to a `ResolvedLiteratureItem` (the return object
literal of `queryCrossref`). -/
def mapCrossref (rec : CRRecord) (query : Str) (candidate : CitationCandidate)
    (uuidv : Str) : ResolvedLiteratureItem :=
  { id := rec.doi.getD uuidv
    title := match rec.title with
      | some (t :: _) => t
      | _ => candidate.titleGuess.getD query
    abstract := rec.abstract.map stripJats
    journal := match rec.containerTitle with
      | some (t :: _) => if t ≠ [] then some t else candidate.journalGuess
      | _ => candidate.journalGuess
    year := rec.issuedYear <|> candidate.year
    authors := rec.author.map (fun l => (l.map crAuthorName).filter (fun n => n ≠ []))
    url := rec.url <|> (match rec.doi with
      | some d => if d ≠ [] then some (str "https://doi.org/" ++ d) else none
      | none => none)
    source := .crossref
    matchedCitation := candidate }

/-- `queryCrossref` over the fetch oracle. -/
def queryCrossref (fetchCR : Str → Except Unit (Option CRRecord)) (uuidv : Str)
    (query : Str) (candidate : CitationCandidate) :
    Except Unit (Option ResolvedLiteratureItem) :=
  match fetchCR query with
  | .error e => .error e
  | .ok none => .ok none
  | .ok (some rec) => .ok (some (mapCrossref rec query candidate uuidv))

/-- Oracle bundle for one resolver run: the two provider fetches, the
`crypto.randomUUID()` supply and the `SEMANTIC_SCHOLAR_API_KEY` environment
value. -/
structure ResolverEnv where
  fetchSS : Str → Except Unit (Option SSRecord)
  fetchCR : Str → Except Unit (Option CRRecord)
  uuidv : Str
  envApiKey : Option Str := none

/-- The per-candidate loop of `resolveLiteratureReferences`, with the thrown
provider failures caught as in the source (`try/catch` per provider).  The
third component records every Crossref query actually issued (query string
and candidate), used to verify the fallback ordering. -/
def resolveLoop (env : ResolverEnv) (apiKey : Option Str) :
    List CitationCandidate → List ResolvedLiteratureItem → List Str →
    List (Str × CitationCandidate) →
    List ResolvedLiteratureItem × List Str × List (Str × CitationCandidate)
  | [], resolved, handledIds, crCalls => (resolved, handledIds, crCalls)
  | candidate :: rest, resolved, handledIds, crCalls =>
    let query := buildQueryFromCitation candidate
    match querySemanticScholar env.fetchSS env.uuidv query candidate apiKey with
    | .ok (some r) => resolveLoop env apiKey rest (resolved ++ [r]) (handledIds ++ [candidate.id]) crCalls
    | _ =>
      match queryCrossref env.fetchCR env.uuidv query candidate with
      | .ok (some r) =>
        resolveLoop env apiKey rest (resolved ++ [r]) (handledIds ++ [candidate.id]) (crCalls ++ [(query, candidate)])
      | _ => resolveLoop env apiKey rest resolved handledIds (crCalls ++ [(query, candidate)])

/-- `resolveLiteratureReferences` from the source, instrumented with the list
of Crossref queries issued. -/
def resolveLiteratureReferencesAux (env : ResolverEnv) (citations : List CitationCandidate)
    (options : Option ResolveOptions) :
    LiteratureSearchResult × List (Str × CitationCandidate) :=
  if citations = [] then (⟨[], []⟩, [])
  else
    let limit := (options.bind (·.limit)).getD DEFAULT_RESOLVE_LIMIT
    let scopedCitations := citations.take limit
    let apiKey := (options.bind (·.semanticScholarApiKey)) <|> env.envApiKey
    let (resolved, handledIds, crCalls) := resolveLoop env apiKey scopedCitations [] [] []
    let unresolved := scopedCitations.filter (fun citation => !handledIds.contains citation.id)
    (⟨resolved, unresolved⟩, crCalls)

/-- `resolveLiteratureReferences` from the source. -/
def resolveLiteratureReferences (env : ResolverEnv) (citations : List CitationCandidate)
    (options : Option ResolveOptions) : LiteratureSearchResult :=
  (resolveLiteratureReferencesAux env citations options).1

/-- Per-candidate outcome of the resolver loop (closed form of one loop
iteration): the Semantic Scholar hit if any, else the Crossref hit if any,
else `none`. -/
def resolveOne (env : ResolverEnv) (apiKey : Option Str) (candidate : CitationCandidate) :
    Option ResolvedLiteratureItem :=
  let query := buildQueryFromCitation candidate
  match querySemanticScholar env.fetchSS env.uuidv query candidate apiKey with
  | .ok (some r) => some r
  | _ =>
    match queryCrossref env.fetchCR env.uuidv query candidate with
    | .ok (some r) => some r
    | _ => none

/-- Did the Semantic Scholar query succeed with a hit for this candidate? -/
def ssHit (env : ResolverEnv) (apiKey : Option Str) (candidate : CitationCandidate) : Bool :=
  match querySemanticScholar env.fetchSS env.uuidv (buildQueryFromCitation candidate) candidate apiKey with
  | .ok (some _) => true
  | _ => false

/-- The Crossref call issued for this candidate, if any (closed form). -/
def crCallOf (env : ResolverEnv) (apiKey : Option Str) (candidate : CitationCandidate) :
    Option (Str × CitationCandidate) :=
  if ssHit env apiKey candidate then none
  else some (buildQueryFromCitation candidate, candidate)

/-! ## Report orchestration (`routes/cases.ts`)

The handlers are modelled as total functions from the request inputs, the
current database view of the case (`Option CaseDbRow`, its documents) and an
oracle bundle (`OrchestratorEnv`) for the three effectful steps — literature
resolution, the OpenAI call and the report `UPDATE` — to an outcome carrying
the HTTP response, the final database state of the case and an ordered trace
of state transitions and external calls.  A thrown exception from an oracle
is an `Except.error`/`persistOk = false`; `setCaseAppState` writes are
modelled as always succeeding.

Hebrew literals from the source (prompt scaffolding, labels, fallback texts)
are represented by distinct ASCII placeholder constants prefixed `heb`; no
claim depends on their content.  The OpenAI `temperature` option is a
floating-point sampling parameter with no control-flow influence and is
omitted from the modelled request. -/

inductive AppState where
  | idle
  | loading
  | success
  | error
  | processing
deriving DecidableEq, Repr

inductive UserRole where
  | admin
  | user
deriving DecidableEq, Repr

structure JwtUserPayload where
  username : Str
  role : UserRole
deriving DecidableEq, Repr

/-- `FocusOptions`: a string-keyed map of booleans. -/
abbrev FocusOptions := List (Str × Bool)

structure CaseDbRow where
  id : Str
  name : Str
  created_at : Str
  owner : Str
  focus_options : FocusOptions
  focus_text : Option Str
  initial_report : Option Str
  comparison_report : Option Str
  app_state : AppState
deriving DecidableEq, Repr

structure CaseDocument where
  id : Str
  caseId : Str
  originalFilename : Str
  mimeType : Str
  sizeBytes : Nat
  extractedText : Option Str
  createdAt : Str
deriving DecidableEq, Repr

/-- `canAccessCase` from the source. -/
def canAccessCase (user : JwtUserPayload) (caseRow : CaseDbRow) : Bool :=
  user.role = UserRole.admin || caseRow.owner = user.username

/-- Substring test (`String.prototype.includes`). -/
def hasSub (needle : Str) : Str → Bool
  | [] => needle.isEmpty
  | c :: rest => needle.isPrefixOf (c :: rest) || hasSub needle rest

/-- `String.prototype.toLowerCase` (modelled for ASCII; the Hebrew keywords
are caseless). -/
def jsLower (l : Str) : Str := l.map Char.toLower

/- Placeholder constants for Hebrew literals of the source. -/
def hebKeywordChavot : Str := str "[heb:chavot]"
def hebKeywordMumche : Str := str "[heb:mumche]"
def hebKeywordChavad : Str := str "[heb:chavod]"
def hebNoFocusSelected : Str := str "[heb:no-focus-points-selected]"
def hebLabelNegligence : Str := str "[heb:negligence]"
def hebLabelCausation : Str := str "[heb:causation]"
def hebLabelLifeExpectancy : Str := str "[heb:life-expectancy]"
def hebNoFocusText : Str := str "[heb:no-focus-text]"
def hebNoArticles : Str := str "[heb:no-articles-found]"
def hebNoCitations : Str := str "[heb:no-citations-need-follow-up]"
def hebAuthorsUnknown : Str := str "[heb:authors-not-identified]"
def hebAuthorsLabel : Str := str "[heb:authors] "
def hebSourceDocLabel : Str := str "[heb:source-opinion] "
def hebJournalLabel : Str := str "[heb:journal] "
def hebYearLabel : Str := str "[heb:year] "
def hebAbstractLabel : Str := str "[heb:abstract] "
def hebUrlLabel : Str := str "[heb:link] "
def hebSourceLabel : Str := str "[heb:source] "
def hebCitationLabel : Str := str "[heb:citation] "
def hebOpinionLabel : Str := str "[heb:opinion] "
def hebSpecialtyLabel : Str := str "[heb:specialty] "
def hebDocIdLabel : Str := str "[heb:doc-id] "
def hebReadDeeply : Str := str "[heb:summarized-text-read-deeply]"
def hebSpecialtyOncology : Str := str "[heb:oncology]"
def hebSpecialtyRadiology : Str := str "[heb:radiology]"
def hebSpecialtySurgery : Str := str "[heb:surgery]"
def hebSpecialtyGastro : Str := str "[heb:gastroenterology]"
def hebSpecialtyPathology : Str := str "[heb:pathology]"
def hebSpecialtyUnknown : Str := str "[heb:specialty-not-identified]"
def hebLitFailInitial : Str := str "[heb:automatic-article-search-failed-initial]"
def hebLitFailComparison : Str := str "[heb:automatic-article-search-failed-comparison]"
def hebDepthDeep : Str := str "[heb:deep-and-detailed]"
def hebDepthConcise : Str := str "[heb:high-despite-conciseness]"
def hebScaffoldInitialHead : Str := str "[heb:initial-prompt-scaffold-head]"
def hebScaffoldInitialTail : Str := str "[heb:initial-prompt-scaffold-tail]"
def hebScaffoldComparisonHead : Str := str "[heb:comparison-prompt-scaffold-head]"
def hebScaffoldComparisonTail : Str := str "[heb:comparison-prompt-scaffold-tail]"
def hebOpinionABlockHead : Str := str "[heb:opinion-a] "
def hebOpinionBBlockHead : Str := str "[heb:opinion-b] "
def hebClaimsAndDataLabel : Str := str "[heb:main-claims-and-data]"

/-- `FOCUS_OPTION_LABELS` from the source. -/
def FOCUS_OPTION_LABELS : List (Str × Str) :=
  [(str "negligence", hebLabelNegligence),
   (str "causation", hebLabelCausation),
   (str "lifeExpectancy", hebLabelLifeExpectancy)]

/-- `describeFocusOptions` from the source. -/
def describeFocusOptions (options : FocusOptions) : Str :=
  let labels := (options.filter (fun kv => kv.2)).map
    (fun kv => ((FOCUS_OPTION_LABELS.lookup kv.1).getD kv.1))
  if labels ≠ [] then List.intercalate (str ", ") labels else hebNoFocusSelected

/-- `isLikelyExpertOpinion` from the source: keyword search over the
lower-cased filename. -/
def isLikelyExpertOpinion (doc : CaseDocument) : Bool :=
  let keywords := [hebKeywordChavot, str "expert", str "opinion", str "report",
    hebKeywordMumche, hebKeywordChavad, str "expertise"]
  keywords.any (fun keyword => hasSub keyword (jsLower doc.originalFilename))

/-- `inferExpertSpecialty` from the source. -/
def inferExpertSpecialty (filename : Str) : Str :=
  let normalized := jsLower filename
  if hasSub (str "[heb:onkolog]") normalized || hasSub (str "oncolog") normalized then
    hebSpecialtyOncology
  else if hasSub (str "[heb:radyolog]") normalized || hasSub (str "radiolog") normalized then
    hebSpecialtyRadiology
  else if hasSub (str "[heb:kirurg]") normalized || hasSub (str "surgery") normalized ||
      hasSub (str "surgeon") normalized then
    hebSpecialtySurgery
  else if hasSub (str "[heb:gastro]") normalized || hasSub (str "gastro") normalized then
    hebSpecialtyGastro
  else if hasSub (str "[heb:patolog]") normalized then
    hebSpecialtyPathology
  else hebSpecialtyUnknown

/-- A conditional piece of `formatResolvedReferences` (`x ? label + x :
undefined`, JavaScript truthiness). -/
def optPiece (label : Str) : Option Str → Option Str
  | some v => if v ≠ [] then some (label ++ v) else none
  | none => none

/-- `formatResolvedReferences` from the source. -/
def formatResolvedReferences (items : List ResolvedLiteratureItem) : Str :=
  if items = [] then hebNoArticles
  else
    List.intercalate (str "\n\n") (items.enum.map (fun p =>
      let index := p.1
      let item := p.2
      let authors := match item.authors with
        | some l => if l ≠ [] then hebAuthorsLabel ++ List.intercalate (str ", ") l else hebAuthorsUnknown
        | none => hebAuthorsUnknown
      let sourceDoc := match item.matchedCitation.sourceDocumentName with
        | some n => if n ≠ [] then some (hebSourceDocLabel ++ n) else none
        | none => none
      let yearPiece := match item.year with
        | some y => if y ≠ 0 then some (hebYearLabel ++ (toString y).data) else none
        | none => none
      List.intercalate (str "\n") (List.filterMap id
        [some (hebSourceLabel ++ (toString (index + 1)).data ++ str ": " ++ item.title),
         sourceDoc,
         some authors,
         optPiece hebJournalLabel item.journal,
         yearPiece,
         optPiece hebAbstractLabel item.abstract,
         optPiece hebUrlLabel item.url])))

/-- `formatUnresolvedCitations` from the source. -/
def formatUnresolvedCitations (items : List CitationCandidate) : Str :=
  if items = [] then hebNoCitations
  else
    List.intercalate (str "\n") (items.enum.map (fun p =>
      let doc := match p.2.sourceDocumentName with
        | some n => if n ≠ [] then str " (" ++ n ++ str ")" else []
        | none => []
      hebCitationLabel ++ (toString (p.1 + 1)).data ++ doc ++ str ": " ++ p.2.rawText))

/- Configuration constants (source defaults; environment overrides are
deployment configuration and are modelled at their defaults). -/
def MAX_REFERENCES_PER_DOCUMENT : Nat := 4
def MAX_REFERENCES_PER_REPORT : Nat := 10
def INITIAL_REPORT_MAX_TOKENS : Nat := 2400
def COMPARISON_REPORT_MAX_TOKENS : Nat := 2000
def MEDICAL_REPORT_MODEL : Str := str "gpt-4.1-mini"
def MEDICAL_REPORT_DEPTH : Str := str "deep"

inductive ChatRole where
  | system
  | user
  | assistant
deriving DecidableEq, Repr

structure ChatMessage where
  role : ChatRole
  content : Str
deriving DecidableEq, Repr

/-- The request passed to `callOpenAI` (role-tagged messages, model id and
output-token budget). -/
structure GenRequest where
  messages : List ChatMessage
  model : Str
  maxTokens : Nat
deriving DecidableEq, Repr

/-- One field of a response body: its name and its string value (`none`
models JSON `null`).  Every body built by the modelled handlers is a flat
object of string-or-null fields. -/
structure JsonField where
  name : Str
  value : Option Str
deriving DecidableEq, Repr

/-- Response bodies: a flat JSON object, or no body (`res.send()`). -/
inductive Json where
  | null : Json
  | obj : List JsonField → Json
deriving DecidableEq, Repr

/-- Does a JSON object carry the given field? -/
def jsonHasField (j : Json) (fieldName : Str) : Bool :=
  match j with
  | .obj fields => fields.any (fun f => f.name = fieldName)
  | _ => false

/-- Read a field's value out of a response body. -/
def jsonGetField (j : Json) (fieldName : Str) : Option (Option Str) :=
  match j with
  | .obj fields => (fields.find? (fun f => f.name = fieldName)).map (·.value)
  | _ => none

/-- `res.status(s).json({message})`. -/
def msgBody (m : Str) : Json := Json.obj [⟨str "message", some m⟩]

/-- Observable pipeline events, in execution order: `app_state` writes and
external network calls. -/
inductive PipelineEvent where
  | setState (s : AppState)
  | externalCall (tag : Str)
deriving DecidableEq, Repr

/-- Outcome of one report-request handler run. -/
structure HandlerOutcome where
  status : Nat
  body : Json
  finalCase : Option CaseDbRow
  trace : List PipelineEvent
deriving DecidableEq, Repr

/-- Oracle bundle for one orchestrator run: literature resolution (the call
to `resolveLiteratureReferences`, totalised by its internal catches but kept
fallible here to cover the handler's own `try/catch`), the OpenAI call
(`Except.error` carries `error.message`), whether the report `UPDATE`
succeeds and its failure message, and the detector's UUID supply. -/
structure OrchestratorEnv where
  resolveLit : List CitationCandidate → Except Unit LiteratureSearchResult
  callAI : GenRequest → Except Str Str
  persistOk : Bool
  persistErrMsg : Str
  freshId : Nat → Str

/-- `caseRow.focus_text?.trim() ? caseRow.focus_text.trim() : fallback`. -/
def focusNarrativeOf (t : Option Str) : Str :=
  match t with
  | some v => if jsTrim v ≠ [] then jsTrim v else hebNoFocusText
  | none => hebNoFocusText

/-- The per-document block of the initial-report prompt (scaffolding literals
as placeholders). -/
def initialDocBlock (p : Nat × CaseDocument) : Str :=
  List.intercalate (str "\n")
    [hebOpinionLabel ++ (toString (p.1 + 1)).data ++ str ": " ++ p.2.originalFilename,
     hebSpecialtyLabel ++ inferExpertSpecialty p.2.originalFilename,
     hebDocIdLabel ++ p.2.id,
     hebReadDeeply,
     truncateForPrompt p.2.extractedText]

/-- `buildInitialReportPrompt` (field order as in the source; fixed Hebrew
scaffolding abbreviated to placeholder segments). -/
def buildInitialReportPrompt (caseName owner focusSummary focusNarrative detailedDocBlock
    literatureSummaryText unresolvedCitationsText depthHint : Str) : Str :=
  List.intercalate (str "\n")
    [hebScaffoldInitialHead, caseName, owner, focusSummary, focusNarrative,
     detailedDocBlock, literatureSummaryText, unresolvedCitationsText,
     hebScaffoldInitialTail, depthHint]

def initialSystemMessage : Str :=
  str "You are a senior medical expert witness who writes exhaustive Hebrew analyses of plaintiff expert opinions. Remain strictly medical; avoid legal terminology."

def comparisonSystemMessage : Str :=
  str "You are a senior medical expert who compares expert opinions entirely from a clinical perspective. Always answer in Hebrew and avoid legal commentary."

/-- The pure prompt-assembly slice of the initial-report handler (lines
between the `processing` transition and the `callOpenAI` call): expert-opinion
filtering, per-document blocks, citation detection, literature resolution
(with its `try/catch` fallback texts) and the final request object. -/
def initialGenRequest (env : OrchestratorEnv) (caseRow : CaseDbRow)
    (documents : List CaseDocument) : GenRequest :=
  let expertOpinionDocs := documents.filter isLikelyExpertOpinion
  let docsForAnalysis := if expertOpinionDocs ≠ [] then expertOpinionDocs else documents
  let detailedDocBlock :=
    List.intercalate (str "\n\n") (docsForAnalysis.enum.map initialDocBlock)
  let focusSummary := describeFocusOptions caseRow.focus_options
  let focusNarrative := focusNarrativeOf caseRow.focus_text
  let citationCandidates := docsForAnalysis.flatMap (fun doc =>
    detectReferenceCandidates doc.extractedText
      (some { limit := some MAX_REFERENCES_PER_DOCUMENT
              sourceDocumentId := some doc.id
              sourceDocumentName := some doc.originalFilename }) env.freshId)
  let scopedCitationCandidates := citationCandidates.take MAX_REFERENCES_PER_REPORT
  let litTexts :=
    match env.resolveLit scopedCitationCandidates with
    | .ok litRes =>
      (formatResolvedReferences litRes.resolved, formatUnresolvedCitations litRes.unresolved)
    | .error _ =>
      (hebLitFailInitial, formatUnresolvedCitations scopedCitationCandidates)
  let depthHint := if MEDICAL_REPORT_DEPTH = str "concise" then hebDepthConcise else hebDepthDeep
  let prompt := buildInitialReportPrompt caseRow.name caseRow.owner focusSummary
    focusNarrative detailedDocBlock litTexts.1 litTexts.2 depthHint
  { messages := [⟨ChatRole.system, initialSystemMessage⟩, ⟨ChatRole.user, prompt⟩]
    model := MEDICAL_REPORT_MODEL, maxTokens := INITIAL_REPORT_MAX_TOKENS }

/-- The events every report request emits before the generation outcome is
known: the committed `processing` write, then the two external calls. -/
def reportPreTrace : List PipelineEvent :=
  [PipelineEvent.setState AppState.processing,
   PipelineEvent.externalCall (str "resolveLiteratureReferences"),
   PipelineEvent.externalCall (str "callOpenAI")]

/-- The `POST /:id/initial-report` handler.  `maybeCase` is the result of
`getCaseRow`, `documents` that of `getCaseDocuments`. -/
def initialReportHandler (env : OrchestratorEnv) (user : JwtUserPayload)
    (maybeCase : Option CaseDbRow) (documents : List CaseDocument) : HandlerOutcome :=
  match maybeCase with
  | none =>
    { status := 404, body := msgBody (str "Case not found"), finalCase := none, trace := [] }
  | some caseRow =>
    if !canAccessCase user caseRow then
      { status := 403, body := msgBody (str "Forbidden: no access to generate report.")
        finalCase := some caseRow, trace := [] }
    else
      let row1 : CaseDbRow := { caseRow with app_state := AppState.processing }
      let preTrace := reportPreTrace
      match env.callAI (initialGenRequest env caseRow documents) with
      | .error err =>
        { status := 500
          body := Json.obj [⟨str "message", some (str "Failed to generate initial report")⟩,
            ⟨str "details", some err⟩]
          finalCase := some { row1 with app_state := AppState.error }
          trace := preTrace ++ [PipelineEvent.setState AppState.error] }
      | .ok reportText =>
        if env.persistOk then
          let row2 : CaseDbRow :=
            { row1 with initial_report := some reportText, app_state := AppState.idle }
          { status := 200
            body := Json.obj [⟨str "id", some row2.id⟩,
              ⟨str "initialReport", row2.initial_report⟩]
            finalCase := some row2
            trace := preTrace ++ [PipelineEvent.setState AppState.idle] }
        else
          { status := 500
            body := Json.obj [⟨str "message", some (str "Failed to generate initial report")⟩,
              ⟨str "details", some env.persistErrMsg⟩]
            finalCase := some { row1 with app_state := AppState.error }
            trace := preTrace ++ [PipelineEvent.setState AppState.error] }

/-- `ComparisonReportRequest` from the source. -/
structure ComparisonReportRequest where
  reportAId : Option Str := none
  reportBId : Option Str := none
  reportAText : Option Str := none
  reportBText : Option Str := none
deriving DecidableEq, Repr

/-- Per-document block of the comparison prompt. -/
def comparisonDocBlock (head : Str) (doc : CaseDocument) (text : Option Str) : Str :=
  List.intercalate (str "\n")
    [head ++ str "(" ++ doc.originalFilename ++ str ")",
     hebDocIdLabel ++ doc.id,
     hebSpecialtyLabel ++ inferExpertSpecialty doc.originalFilename,
     hebClaimsAndDataLabel,
     truncateForPrompt text]

/-- The pure prompt-assembly slice of the comparison-report handler (blocks,
citation detection over both documents, literature resolution with its
`try/catch` fallback texts, and the final request object). -/
def comparisonGenRequest (env : OrchestratorEnv) (caseRow : CaseDbRow)
    (docA docB : CaseDocument) (docAText docBText : Option Str) : GenRequest :=
  let focusSummary := describeFocusOptions caseRow.focus_options
  let focusNarrative := focusNarrativeOf caseRow.focus_text
  let docABlock := comparisonDocBlock hebOpinionABlockHead docA docAText
  let docBBlock := comparisonDocBlock hebOpinionBBlockHead docB docBText
  let docACitations := detectReferenceCandidates docAText
    (some { limit := some MAX_REFERENCES_PER_DOCUMENT
            sourceDocumentId := some docA.id
            sourceDocumentName := some docA.originalFilename }) env.freshId
  let docBCitations := detectReferenceCandidates docBText
    (some { limit := some MAX_REFERENCES_PER_DOCUMENT
            sourceDocumentId := some docB.id
            sourceDocumentName := some docB.originalFilename }) env.freshId
  let combinedCitations := (docACitations ++ docBCitations).take MAX_REFERENCES_PER_REPORT
  let litTexts :=
    match env.resolveLit combinedCitations with
    | .ok litRes =>
      (formatResolvedReferences litRes.resolved, formatUnresolvedCitations litRes.unresolved)
    | .error _ =>
      (hebLitFailComparison, formatUnresolvedCitations combinedCitations)
  let prompt := List.intercalate (str "\n")
    [hebScaffoldComparisonHead, caseRow.name, focusSummary, focusNarrative,
     docABlock, docBBlock, litTexts.1, litTexts.2, hebScaffoldComparisonTail]
  { messages := [⟨ChatRole.system, comparisonSystemMessage⟩, ⟨ChatRole.user, prompt⟩]
    model := MEDICAL_REPORT_MODEL, maxTokens := COMPARISON_REPORT_MAX_TOKENS }

/-- The `POST /:id/comparison-report` handler. -/
def comparisonReportHandler (env : OrchestratorEnv) (user : JwtUserPayload)
    (maybeCase : Option CaseDbRow) (documents : List CaseDocument)
    (payload : ComparisonReportRequest) : HandlerOutcome :=
  if !truthyS payload.reportAId || !truthyS payload.reportBId then
    { status := 400, body := msgBody (str "reportAId and reportBId are required.")
      finalCase := maybeCase, trace := [] }
  else
    match maybeCase with
    | none =>
      { status := 404, body := msgBody (str "Case not found"), finalCase := none, trace := [] }
    | some caseRow =>
      if !canAccessCase user caseRow then
        { status := 403
          body := msgBody (str "Forbidden: no access to generate comparison report.")
          finalCase := some caseRow, trace := [] }
      else
        let row1 : CaseDbRow := { caseRow with app_state := AppState.processing }
        match documents.find? (fun d => d.id = payload.reportAId.getD []),
            documents.find? (fun d => d.id = payload.reportBId.getD []) with
        | some docA, some docB =>
          let docAText := payload.reportAText <|> docA.extractedText
          let docBText := payload.reportBText <|> docB.extractedText
          if !truthyS docAText || !truthyS docBText then
            { status := 400
              body := msgBody (str "Selected documents do not contain extracted text yet.")
              finalCase := some row1, trace := [PipelineEvent.setState AppState.processing] }
          else
            let preTrace := reportPreTrace
            match env.callAI (comparisonGenRequest env caseRow docA docB docAText docBText) with
            | .error err =>
              { status := 500
                body := Json.obj [⟨str "message", some (str "Failed to generate comparison report")⟩,
                  ⟨str "details", some err⟩]
                finalCase := some { row1 with app_state := AppState.error }
                trace := preTrace ++ [PipelineEvent.setState AppState.error] }
            | .ok comparisonText =>
              if env.persistOk then
                let row2 : CaseDbRow :=
                  { row1 with comparison_report := some comparisonText, app_state := AppState.idle }
                { status := 200
                  body := Json.obj [⟨str "id", some row2.id⟩,
                    ⟨str "comparisonReport", row2.comparison_report⟩]
                  finalCase := some row2
                  trace := preTrace ++ [PipelineEvent.setState AppState.idle] }
              else
                { status := 500
                  body := Json.obj [⟨str "message", some (str "Failed to generate comparison report")⟩,
                    ⟨str "details", some env.persistErrMsg⟩]
                  finalCase := some { row1 with app_state := AppState.error }
                  trace := preTrace ++ [PipelineEvent.setState AppState.error] }
        | _, _ =>
          { status := 404
            body := msgBody (str "One or both documents were not found for this case.")
            finalCase := some row1, trace := [PipelineEvent.setState AppState.processing] }

/-- Outcome of the document-delete handler. -/
structure DeleteOutcome where
  status : Nat
  body : Json
  finalCase : Option CaseDbRow
  finalDocuments : List CaseDocument
deriving DecidableEq, Repr

/-- The `DELETE /:id/documents/:docId` handler. -/
def deleteDocumentHandler (user : JwtUserPayload) (maybeCase : Option CaseDbRow)
    (documents : List CaseDocument) (docId : Str) : DeleteOutcome :=
  match maybeCase with
  | none =>
    { status := 404, body := msgBody (str "Case not found"), finalCase := none
      finalDocuments := documents }
  | some caseRow =>
    if !canAccessCase user caseRow then
      { status := 403
        body := msgBody (str "Forbidden: You do not have permission to delete documents for this case.")
        finalCase := some caseRow, finalDocuments := documents }
    else
      match documents.find? (fun d => d.id = docId) with
      | none =>
        { status := 404, body := msgBody (str "Document not found")
          finalCase := some caseRow, finalDocuments := documents }
      | some _ =>
        let documents2 := documents.filter (fun d => !(d.id = docId))
        if caseRow.app_state = AppState.processing then
          { status := 204, body := Json.null
            finalCase := some { caseRow with app_state := AppState.idle }
            finalDocuments := documents2 }
        else
          { status := 204, body := Json.null, finalCase := some caseRow
            finalDocuments := documents2 }

/-! ## Concrete fixtures used by witnesses and counterexamples -/

/-- The scenario line from the specification. -/
def smithLine : Str :=
  str "Smith J. (2019). Outcomes in delayed diagnosis. Journal of Surgery 45:112."

/-- The candidate the detector produces for `smithLine` (UUID supply
`fun _ => "u"`, no source document). -/
def smithCandidate : CitationCandidate :=
  { id := str "doc-0-u", rawText := smithLine, year := some 2019 }

/-- The `citations.take limit` truncation performed by the resolver. -/
def scopedOf (citations : List CitationCandidate) (options : Option ResolveOptions) :
    List CitationCandidate :=
  citations.take ((options.bind (·.limit)).getD DEFAULT_RESOLVE_LIMIT)

/-- The API key the resolver passes to Semantic Scholar
(`options?.semanticScholarApiKey ?? SEMANTIC_SCHOLAR_API_KEY`). -/
def apiKeyOf (env : ResolverEnv) (options : Option ResolveOptions) : Option Str :=
  (options.bind (·.semanticScholarApiKey)) <|> env.envApiKey

/-- Both providers report an empty result for every query. -/
def failBothEnv : ResolverEnv :=
  { fetchSS := fun _ => .ok none, fetchCR := fun _ => .ok none, uuidv := str "u" }

/-- Nine distinct candidates — one more than the resolver's default limit. -/
def nineCandidates : List CitationCandidate :=
  (List.range 9).map (fun i => { id := (toString i).data, rawText := str "line " ++ (toString i).data })

/-- A Semantic Scholar hit with full metadata. -/
def ssOnlyRecord : SSRecord := { title := some (str "Resolved Title"), year := some 2018 }

/-- Semantic Scholar always hits; Crossref always comes back empty. -/
def ssHitEnv : ResolverEnv :=
  { fetchSS := fun _ => .ok (some ssOnlyRecord), fetchCR := fun _ => .ok none, uuidv := str "u" }

def witCandidateA : CitationCandidate :=
  { id := str "a1", rawText := str "Alpha beta gamma delta 2018 study" }

/-- Both providers throw (simulated network errors). -/
def failThrowEnv : ResolverEnv :=
  { fetchSS := fun _ => .error (), fetchCR := fun _ => .error (), uuidv := str "u" }

def witCandidateB : CitationCandidate :=
  { id := str "b1", rawText := str "Some citation text 2001" }

/-- A provider record whose title is present but empty. -/
def emptyTitleRecord : SSRecord := { title := some [] }

def emptyTitleEnv : ResolverEnv :=
  { fetchSS := fun _ => .ok (some emptyTitleRecord), fetchCR := fun _ => .ok none, uuidv := str "u" }

def witCandidateC : CitationCandidate :=
  { id := str "c1", rawText := str "Gamma citation row 1999" }

/-- A provider record with a nonempty title. -/
def titledRecord : SSRecord := { title := some (str "T") }

def titledEnv : ResolverEnv :=
  { fetchSS := fun _ => .ok (some titledRecord), fetchCR := fun _ => .ok none, uuidv := str "u" }

def wUser : JwtUserPayload := { username := str "alice", role := UserRole.user }

def wCaseIdle : CaseDbRow :=
  { id := str "case1", name := str "Case One", created_at := str "2024-01-01"
    owner := str "alice", focus_options := [], focus_text := none
    initial_report := some (str "old initial"), comparison_report := none
    app_state := AppState.idle }

def wCaseProcessing : CaseDbRow := { wCaseIdle with app_state := AppState.processing }

/-- All oracles succeed. -/
def okOrchEnv : OrchestratorEnv :=
  { resolveLit := fun _ => .ok ⟨[], []⟩, callAI := fun _ => .ok (str "generated")
    persistOk := true, persistErrMsg := str "db write failed", freshId := fun _ => str "u" }

/-- The OpenAI call throws. -/
def genFailOrchEnv : OrchestratorEnv :=
  { okOrchEnv with callAI := fun _ => .error (str "AI call failed") }

def wPayloadAB : ComparisonReportRequest :=
  { reportAId := some (str "docA"), reportBId := some (str "docB") }

def wDocument : CaseDocument :=
  { id := str "docA", caseId := str "case1", originalFilename := str "scan.pdf"
    mimeType := str "application/pdf", sizeBytes := 100
    extractedText := some (str "hello"), createdAt := str "2024-01-02" }

/-- "The case transitioned to `processing` before any external call": every
external-call event in the trace is preceded by a `processing` write. -/
def processingBeforeCalls (tr : List PipelineEvent) : Prop :=
  ∀ (i : Nat) (tag : Str), tr[i]? = some (PipelineEvent.externalCall tag) →
    ∃ j : Nat, j < i ∧ tr[j]? = some (PipelineEvent.setState AppState.processing)

/-! ## Helper lemmas -/

/- Evaluation checks of the string and regex models on concrete inputs. -/
example : jsTrim (str "  ab c  ") = str "ab c" := by decide
example : splitLinesJS (str "a\r\n\r\nb\nc") = [str "a", [], str "b", str "c"] := by decide
example : splitLinesJS (str "a\n\r\nb") = [str "a", [], str "b"] := by decide
example : findYear none (str "published in 1987, vol 3") = some 1987 := by decide
example : findYear none (str "no year here 21900 x") = none := by decide
example : findYear none (str "year2020boundary") = none := by decide
example : findQuoted (str "see \"A Title\" there") = some (str "A Title") := by decide
example : findQuoted (str "no quotes at all.") = none := by decide
example : normalizeWhitespace (str " a  b\t c ") = str "a b c" := by decide
example : findAfterParen (str "(2001) Some finding. rest") = some (str "Some finding") := by decide
example : findAfterParen (str "(2019). Outcomes.") = none := by decide
example : findJournalGroup (str "x. Journal of Surgery 2019;3") = some (str "Journal of Surgery") := by decide
example : findJournalGroup (str "Smith J. (2019). Journal of Surgery 45:112.") = none := by decide
example : truncateForPrompt (some (str "short text")) = str "short text" := by decide
example : truncateForPrompt (some (str "abcdef")) 3 = str "abc" ++ truncationMarker := by decide
example : truncateForPrompt none = noTextPlaceholder := by decide
example : stripJats (str "<jats:p>Text</jats:p> done") = str "Text done" := by decide

theorem length_filterMap_eq_filter {α β : Type} (f : α → Option β) (l : List α) :
    (l.filterMap f).length = (l.filter (fun a => (f a).isSome)).length := by
  induction l with
  | nil => simp
  | cons a rest ih =>
    cases h : f a <;> simp [List.filterMap_cons, List.filter_cons, h, ih]

theorem length_filter_partition {α : Type} (p : α → Bool) (l : List α) :
    (l.filter p).length + (l.filter (fun a => !p a)).length = l.length := by
  induction l with
  | nil => simp
  | cons a rest ih =>
    cases h : p a <;> simp [List.filter_cons, h] <;> omega

theorem resolveOne_matchedCitation (env : ResolverEnv) (apiKey : Option Str)
    (c : CitationCandidate) (r : ResolvedLiteratureItem)
    (h : resolveOne env apiKey c = some r) : r.matchedCitation = c := by
  unfold resolveOne at h
  cases hss : env.fetchSS (buildQueryFromCitation c) with
  | error e =>
    cases hcr : env.fetchCR (buildQueryFromCitation c) with
    | error e2 => simp [querySemanticScholar, queryCrossref, hss, hcr] at h
    | ok o =>
      cases o with
      | none => simp [querySemanticScholar, queryCrossref, hss, hcr] at h
      | some rec =>
        simp [querySemanticScholar, queryCrossref, hss, hcr] at h
        simp [← h, mapCrossref]
  | ok o =>
    cases o with
    | none =>
      cases hcr : env.fetchCR (buildQueryFromCitation c) with
      | error e2 => simp [querySemanticScholar, queryCrossref, hss, hcr] at h
      | ok o2 =>
        cases o2 with
        | none => simp [querySemanticScholar, queryCrossref, hss, hcr] at h
        | some rec =>
          simp [querySemanticScholar, queryCrossref, hss, hcr] at h
          simp [← h, mapCrossref]
    | some rec =>
      simp [querySemanticScholar, hss] at h
      simp [← h, mapSemanticScholar]

theorem resolveLoop_closedForm (env : ResolverEnv) (apiKey : Option Str)
    (cands : List CitationCandidate) (resolved : List ResolvedLiteratureItem)
    (handledIds : List Str) (crCalls : List (Str × CitationCandidate)) :
    resolveLoop env apiKey cands resolved handledIds crCalls =
      (resolved ++ cands.filterMap (resolveOne env apiKey),
       handledIds ++ (cands.filter (fun c => (resolveOne env apiKey c).isSome)).map (fun c => c.id),
       crCalls ++ cands.filterMap (crCallOf env apiKey)) := by
  induction cands generalizing resolved handledIds crCalls with
  | nil => simp [resolveLoop]
  | cons c rest ih =>
    cases hss : env.fetchSS (buildQueryFromCitation c) with
    | error e =>
      cases hcr : env.fetchCR (buildQueryFromCitation c) with
      | error e2 =>
        simp [resolveLoop, querySemanticScholar, queryCrossref, resolveOne, ssHit, crCallOf,
          hss, hcr, ih]
      | ok o =>
        cases o with
        | none =>
          simp [resolveLoop, querySemanticScholar, queryCrossref, resolveOne, ssHit, crCallOf,
            hss, hcr, ih]
        | some rec =>
          simp [resolveLoop, querySemanticScholar, queryCrossref, resolveOne, ssHit, crCallOf,
            hss, hcr, ih]
    | ok o =>
      cases o with
      | none =>
        cases hcr : env.fetchCR (buildQueryFromCitation c) with
        | error e2 =>
          simp [resolveLoop, querySemanticScholar, queryCrossref, resolveOne, ssHit, crCallOf,
            hss, hcr, ih]
        | ok o2 =>
          cases o2 with
          | none =>
            simp [resolveLoop, querySemanticScholar, queryCrossref, resolveOne, ssHit, crCallOf,
              hss, hcr, ih]
          | some rec =>
            simp [resolveLoop, querySemanticScholar, queryCrossref, resolveOne, ssHit, crCallOf,
              hss, hcr, ih]
      | some rec =>
        simp [resolveLoop, querySemanticScholar, resolveOne, ssHit, crCallOf, hss, ih]

theorem resolveAux_closedForm (env : ResolverEnv) (citations : List CitationCandidate)
    (options : Option ResolveOptions) :
    resolveLiteratureReferencesAux env citations options =
      (⟨(scopedOf citations options).filterMap (resolveOne env (apiKeyOf env options)),
        (scopedOf citations options).filter (fun c =>
          !(((scopedOf citations options).filter
              (fun c2 => (resolveOne env (apiKeyOf env options) c2).isSome)).map
            (fun c2 => c2.id)).contains c.id)⟩,
       (scopedOf citations options).filterMap (crCallOf env (apiKeyOf env options))) := by
  by_cases hc : citations = []
  · subst hc; simp [resolveLiteratureReferencesAux, scopedOf]
  · simp only [resolveLiteratureReferencesAux, hc, if_false, resolveLoop_closedForm,
      List.nil_append, scopedOf, apiKeyOf]

theorem filterMap_resolveOne_matched (env : ResolverEnv) (apiKey : Option Str)
    (l : List CitationCandidate) :
    (l.filterMap (resolveOne env apiKey)).map (fun r => r.matchedCitation) =
      l.filter (fun c => (resolveOne env apiKey c).isSome) := by
  induction l with
  | nil => simp
  | cons c rest ih =>
    cases h : resolveOne env apiKey c with
    | none => simp [List.filterMap_cons, List.filter_cons, h, ih]
    | some r =>
      simp [List.filterMap_cons, List.filter_cons, h, ih,
        resolveOne_matchedCitation env apiKey c r h]

theorem digitVal_le_nine (c : Char) (h : c.isDigit = true) : digitVal c ≤ 9 := by
  simp [Char.isDigit] at h
  obtain ⟨h1, h2⟩ := h
  have h2n : c.val.toNat ≤ 57 := h2
  simp [digitVal, Char.toNat]
  omega

theorem yearAt_bounds (prev : Option Char) (l : Str) (y : Nat)
    (h : yearAt prev l = some y) : 1900 ≤ y ∧ y ≤ 2099 := by
  unfold yearAt at h
  split at h
  · next c1 c2 c3 c4 rest =>
    split at h
    · next hcond =>
      have hy := Option.some.inj h
      simp only [Bool.and_eq_true, Bool.or_eq_true, decide_eq_true_eq] at hcond
      obtain ⟨⟨⟨⟨h19, hd3⟩, hd4⟩, _⟩, _⟩ := hcond
      have h3 := digitVal_le_nine c3 hd3
      have h4 := digitVal_le_nine c4 hd4
      rcases h19 with ⟨hc1, hc2⟩ | ⟨hc1, hc2⟩ <;>
        (subst hc1; subst hc2; simp [digitVal] at hy h3 h4 ⊢; omega)
    · next => simp at h
  · next => simp at h

theorem findYear_bounds (l : Str) : ∀ (prev : Option Char) (y : Nat),
    findYear prev l = some y → 1900 ≤ y ∧ y ≤ 2099 := by
  induction l with
  | nil => intro prev y h; simp [findYear] at h
  | cons c rest ih =>
    intro prev y h
    unfold findYear at h
    cases hy : yearAt prev (c :: rest) with
    | some y2 =>
      rw [hy] at h
      have := Option.some.inj h
      subst this
      exact yearAt_bounds prev (c :: rest) y2 hy
    | none =>
      rw [hy] at h
      exact ih (some c) y h

theorem detectLoop_length_le (options : Option DetectionOptions) (freshId : Nat → Str)
    (limit : Nat) :
    ∀ (lines : List Str) (index : Nat) (acc : List CitationCandidate),
    acc.length ≤ limit → (detectLoop options freshId limit index lines acc).length ≤ limit := by
  intro lines
  induction lines with
  | nil => intro index acc hacc; simpa [detectLoop] using hacc
  | cons line rest ih =>
    intro index acc hacc
    unfold detectLoop
    split
    · exact hacc
    · next hfull =>
      split
      · exact ih (index + 1) acc hacc
      · refine ih (index + 1) (acc ++ [mkCandidate options freshId index line]) ?_
        simp
        omega

theorem mkCandidate_rawText (options : Option DetectionOptions) (freshId : Nat → Str)
    (index : Nat) (line : Str) : (mkCandidate options freshId index line).rawText = line := rfl

theorem mkCandidate_year (options : Option DetectionOptions) (freshId : Nat → Str)
    (index : Nat) (line : Str) : (mkCandidate options freshId index line).year = findYear none line := rfl

theorem detectLoop_mem_props (options : Option DetectionOptions) (freshId : Nat → Str)
    (limit : Nat) :
    ∀ (lines : List Str) (index : Nat) (acc : List CitationCandidate),
    (∀ c ∈ acc, 20 ≤ c.rawText.length ∧ (findYear none c.rawText).isSome = true ∧
      c.year = findYear none c.rawText) →
    ∀ c ∈ detectLoop options freshId limit index lines acc,
      20 ≤ c.rawText.length ∧ (findYear none c.rawText).isSome = true ∧
      c.year = findYear none c.rawText := by
  intro lines
  induction lines with
  | nil => intro index acc hacc; simpa [detectLoop] using hacc
  | cons line rest ih =>
    intro index acc hacc
    unfold detectLoop
    split
    · exact hacc
    · next hfull =>
      split
      · exact ih (index + 1) acc hacc
      · next hq =>
        refine ih (index + 1) (acc ++ [mkCandidate options freshId index line]) ?_
        intro c hc
        rcases List.mem_append.mp hc with hin | hnew
        · exact hacc c hin
        · have hc2 : c = mkCandidate options freshId index line := by simpa using hnew
          subst hc2
          have hq2 : (findYear none line).isSome = true ∧ 20 ≤ line.length := by
            by_contra hcon
            apply hq
            cases hs : (findYear none line).isSome
            · simp [hs] at hcon ⊢
            · simp [hs] at hcon ⊢
              omega
          refine ⟨?_, ?_, mkCandidate_year options freshId index line⟩
          · rw [mkCandidate_rawText]; exact hq2.2
          · rw [mkCandidate_rawText]; exact hq2.1

theorem processingBeforeCalls_cons (rest : List PipelineEvent) :
    processingBeforeCalls (PipelineEvent.setState AppState.processing :: rest) := by
  intro i tag h
  cases i with
  | zero => simp at h
  | succ n => exact ⟨0, Nat.succ_pos n, by simp⟩

theorem processingBeforeCalls_nil : processingBeforeCalls [] := by
  intro i tag h
  simp at h

/-! ## Claims -/

/-- C3 (counterexample): the claim "for every text string of length at most
the budget the function returns the input unchanged" fails at the empty
string: JavaScript `!text` is true for `""`, so `truncateForPrompt("")`
returns the no-text placeholder instead of `""`. -/
theorem claim3_counterexample :
    truncateForPrompt (some []) = noTextPlaceholder ∧
    truncateForPrompt (some []) ≠ [] ∧
    ([] : Str).length ≤ PROMPT_DOCUMENT_CHAR_LIMIT := by
  refine ⟨rfl, ?_, by decide⟩
  intro h
  simp [truncateForPrompt, truthyS, noTextPlaceholder, str] at h

/-- C3 (amended): for every NONEMPTY string of length at most the budget
(6000), `truncateForPrompt` returns it unchanged; for every string strictly
longer than the budget it returns the first 6000 characters followed by the
truncation marker, of total length exactly budget + marker length.  (The
empty string yields the `[No extracted text available]` placeholder.) -/
theorem claim3_truncation_amended (s : Str) (hne : s ≠ []) :
    (s.length ≤ PROMPT_DOCUMENT_CHAR_LIMIT → truncateForPrompt (some s) = s) ∧
    (PROMPT_DOCUMENT_CHAR_LIMIT < s.length →
      truncateForPrompt (some s) = s.take PROMPT_DOCUMENT_CHAR_LIMIT ++ truncationMarker ∧
      (truncateForPrompt (some s)).length =
        PROMPT_DOCUMENT_CHAR_LIMIT + truncationMarker.length) := by
  constructor
  · intro hle
    simp [truncateForPrompt, truthyS, hne, hle]
  · intro hgt
    have hnle : ¬ s.length ≤ PROMPT_DOCUMENT_CHAR_LIMIT := by omega
    have heq : truncateForPrompt (some s) = s.take PROMPT_DOCUMENT_CHAR_LIMIT ++ truncationMarker := by
      simp [truncateForPrompt, truthyS, hne, hnle]
    refine ⟨heq, ?_⟩
    rw [heq, List.length_append, List.length_take]
    have : min PROMPT_DOCUMENT_CHAR_LIMIT s.length = PROMPT_DOCUMENT_CHAR_LIMIT := by omega
    rw [this]

/-- C3 (witness): a 6001-character string is truncated to exactly
budget + marker length. -/
theorem claim3_witness :
    (truncateForPrompt (some (List.replicate 6001 'a'))).length =
      PROMPT_DOCUMENT_CHAR_LIMIT + truncationMarker.length :=
  ((claim3_truncation_amended (List.replicate 6001 'a')
      (by simp only [ne_eq, List.replicate_eq_nil_iff]; omega)).2
    (by simp only [List.length_replicate, PROMPT_DOCUMENT_CHAR_LIMIT]; omega)).2

/-- C8 (counterexample): on the specification's scenario line the detector's
single candidate carries NO guessed journal — the journal regex demands a
four-digit year right after the capitalized run, and `Journal of Surgery` is
followed by `45:112.`, not a year — so the claimed guess
"Journal of Surgery" is wrong. -/
theorem claim8_counterexample :
    ((detectReferenceCandidates (some smithLine)
        (some { limit := some MAX_REFERENCES_PER_DOCUMENT }) (fun _ => str "u")).map
      (fun c => c.journalGuess)) = [none] ∧
    (none : Option Str) ≠ some (str "Journal of Surgery") := by
  constructor
  · decide
  · decide

/-- C8 (amended): the scenario line yields exactly one candidate, with year
2019, but with no guessed journal and no guessed title. -/
theorem claim8_amended_smith_scenario :
    detectReferenceCandidates (some smithLine)
      (some { limit := some MAX_REFERENCES_PER_DOCUMENT }) (fun _ => str "u") = [smithCandidate] ∧
    smithCandidate.year = some 2019 ∧
    smithCandidate.journalGuess = none ∧
    smithCandidate.titleGuess = none := by
  refine ⟨by decide, rfl, rfl, rfl⟩

/-- C5: for every input text (absent included) and detection options, the
detector returns at most `limit` candidates (the given limit, or the default
6); every candidate's raw line matches the year regex `\b(19|20)\d{2}\b` —
hence its year lies in [1900, 2099] — and is at least 20 characters long, so
shorter or yearless lines never yield candidates. -/
theorem claim5_detector_bounds (text : Option Str) (options : Option DetectionOptions)
    (freshId : Nat → Str) :
    (detectReferenceCandidates text options freshId).length ≤
      (options.bind (·.limit)).getD DEFAULT_DETECTION_LIMIT ∧
    ∀ c ∈ detectReferenceCandidates text options freshId,
      20 ≤ c.rawText.length ∧ c.year = findYear none c.rawText ∧
      (findYear none c.rawText).isSome = true ∧
      1900 ≤ c.year.getD 0 ∧ c.year.getD 0 ≤ 2099 := by
  unfold detectReferenceCandidates
  by_cases ht : truthyS text = true
  · simp only [ht, Bool.not_true, Bool.false_eq_true, if_false]
    constructor
    · exact detectLoop_length_le options freshId _ _ 0 [] (by simp)
    · intro c hc
      obtain ⟨h1, h2, h3⟩ := detectLoop_mem_props options freshId _ _ 0 [] (by simp) c hc
      obtain ⟨y, hy⟩ := Option.isSome_iff_exists.mp h2
      have hb := findYear_bounds c.rawText none y hy
      refine ⟨h1, h3, h2, ?_, ?_⟩
      · rw [h3, hy]; simpa using hb.1
      · rw [h3, hy]; simpa using hb.2
  · simp only [Bool.not_eq_true] at ht
    simp [ht]

/-- C5 (witness): the scenario line with limit 4. -/
theorem claim5_witness :
    (detectReferenceCandidates (some smithLine) (some { limit := some 4 })
      (fun _ => str "u")).length ≤ 4 ∧
    (20 ≤ smithCandidate.rawText.length ∧
     smithCandidate.year = findYear none smithCandidate.rawText ∧
     (findYear none smithCandidate.rawText).isSome = true ∧
     1900 ≤ smithCandidate.year.getD 0 ∧ smithCandidate.year.getD 0 ≤ 2099) :=
  ⟨(claim5_detector_bounds (some smithLine) (some { limit := some 4 }) (fun _ => str "u")).1,
   (claim5_detector_bounds (some smithLine) (some { limit := some 4 }) (fun _ => str "u")).2
     smithCandidate (by decide)⟩

/-- Under distinct candidate ids, the resolver's two output lists are the
pointwise image and complement of the per-candidate outcome over the
truncated input. -/
theorem resolveRefs_spec (env : ResolverEnv) (citations : List CitationCandidate)
    (options : Option ResolveOptions)
    (hnd : ((scopedOf citations options).map (fun c => c.id)).Nodup) :
    (resolveLiteratureReferences env citations options).resolved =
      (scopedOf citations options).filterMap (resolveOne env (apiKeyOf env options)) ∧
    (resolveLiteratureReferences env citations options).unresolved =
      (scopedOf citations options).filter
        (fun c => !(resolveOne env (apiKeyOf env options) c).isSome) := by
  have hinj := List.inj_on_of_nodup_map hnd
  unfold resolveLiteratureReferences
  rw [resolveAux_closedForm]
  refine ⟨rfl, ?_⟩
  apply List.filter_congr
  intro c hc
  have hiff : (((((scopedOf citations options).filter
        (fun c2 => (resolveOne env (apiKeyOf env options) c2).isSome)).map
          (fun c2 => c2.id)).contains c.id) = true)
      ↔ (resolveOne env (apiKeyOf env options) c).isSome = true := by
    constructor
    · intro hcon
      have hm : c.id ∈ (((scopedOf citations options).filter
          (fun c2 => (resolveOne env (apiKeyOf env options) c2).isSome)).map
            (fun c2 => c2.id)) := by simpa using hcon
      obtain ⟨c2, hc2, hid⟩ := List.mem_map.mp hm
      obtain ⟨hc2mem, hc2pred⟩ := List.mem_filter.mp hc2
      have hceq : c2 = c := hinj hc2mem hc hid
      rwa [← hceq]
    · intro hp
      simpa using List.mem_map.mpr ⟨c, List.mem_filter.mpr ⟨hc, hp⟩, rfl⟩
  cases h1 : ((((scopedOf citations options).filter
      (fun c2 => (resolveOne env (apiKeyOf env options) c2).isSome)).map
        (fun c2 => c2.id)).contains c.id) <;>
    cases h2 : (resolveOne env (apiKeyOf env options) c).isSome <;> simp_all
  obtain ⟨a, ⟨hamem, hasome⟩, haid⟩ := h1
  exact hiff a hamem hasome haid

/-- C2 (counterexample): with nine candidates (one more than the default
resolve limit of 8) and both providers empty, `|resolved| + |unresolved|` is
8, not the input size 9 — the resolver first truncates the input with
`citations.slice(0, limit)`. -/
theorem claim2_counterexample :
    (resolveLiteratureReferences failBothEnv nineCandidates none).resolved.length +
      (resolveLiteratureReferences failBothEnv nineCandidates none).unresolved.length = 8 ∧
    nineCandidates.length = 9 := by
  constructor
  · decide
  · decide

/-- C2 (amended): the partition property holds of the TRUNCATED input
`citations.take limit` (limit = `options.limit ?? 8`), for inputs whose
truncated candidates carry pairwise-distinct ids (true of detector output,
whose ids embed fresh UUIDs): the sizes of `resolved` and `unresolved` sum to
the truncated size, and each truncated candidate's id appears in exactly one
of the two matched-id sets. -/
theorem claim2_partition_amended (env : ResolverEnv) (citations : List CitationCandidate)
    (options : Option ResolveOptions)
    (hnd : ((scopedOf citations options).map (fun c => c.id)).Nodup) :
    (resolveLiteratureReferences env citations options).resolved.length +
      (resolveLiteratureReferences env citations options).unresolved.length =
      (scopedOf citations options).length ∧
    ∀ c ∈ scopedOf citations options,
      ((c.id ∈ (resolveLiteratureReferences env citations options).resolved.map
          (fun r => r.matchedCitation.id)) ∨
       (c.id ∈ (resolveLiteratureReferences env citations options).unresolved.map
          (fun c2 => c2.id))) ∧
      ¬((c.id ∈ (resolveLiteratureReferences env citations options).resolved.map
          (fun r => r.matchedCitation.id)) ∧
        (c.id ∈ (resolveLiteratureReferences env citations options).unresolved.map
          (fun c2 => c2.id))) := by
  obtain ⟨hres, hunres⟩ := resolveRefs_spec env citations options hnd
  have hinj := List.inj_on_of_nodup_map hnd
  have hresIds : (resolveLiteratureReferences env citations options).resolved.map
      (fun r => r.matchedCitation.id) =
      ((scopedOf citations options).filter
        (fun c => (resolveOne env (apiKeyOf env options) c).isSome)).map (fun c => c.id) := by
    rw [hres]
    rw [show (fun (r : ResolvedLiteratureItem) => r.matchedCitation.id) =
      (fun (c : CitationCandidate) => c.id) ∘ (fun (r : ResolvedLiteratureItem) => r.matchedCitation)
      from rfl]
    rw [← List.map_map, filterMap_resolveOne_matched]
  constructor
  · rw [hres, hunres, length_filterMap_eq_filter]
    exact length_filter_partition _ _
  · intro c hc
    have hmem_res : (c.id ∈ (resolveLiteratureReferences env citations options).resolved.map
        (fun r => r.matchedCitation.id)) ↔
        (resolveOne env (apiKeyOf env options) c).isSome = true := by
      rw [hresIds]
      constructor
      · intro hmem
        obtain ⟨c2, hc2, hid⟩ := List.mem_map.mp hmem
        obtain ⟨hc2mem, hc2pred⟩ := List.mem_filter.mp hc2
        have hceq : c2 = c := hinj hc2mem hc hid
        rwa [← hceq]
      · intro hp
        exact List.mem_map.mpr ⟨c, List.mem_filter.mpr ⟨hc, hp⟩, rfl⟩
    have hmem_unres : (c.id ∈ (resolveLiteratureReferences env citations options).unresolved.map
        (fun c2 => c2.id)) ↔
        (resolveOne env (apiKeyOf env options) c).isSome = false := by
      rw [hunres]
      constructor
      · intro hmem
        obtain ⟨c2, hc2, hid⟩ := List.mem_map.mp hmem
        obtain ⟨hc2mem, hc2pred⟩ := List.mem_filter.mp hc2
        have hceq : c2 = c := hinj hc2mem hc hid
        subst hceq
        simpa using hc2pred
      · intro hp
        exact List.mem_map.mpr ⟨c, List.mem_filter.mpr ⟨hc, by simp [hp]⟩, rfl⟩
    by_cases hi : (resolveOne env (apiKeyOf env options) c).isSome = true
    · refine ⟨Or.inl (hmem_res.mpr hi), ?_⟩
      rintro ⟨_, hu⟩
      rw [hmem_unres] at hu
      rw [hi] at hu
      cases hu
    · have hi2 : (resolveOne env (apiKeyOf env options) c).isSome = false := by
        cases h : (resolveOne env (apiKeyOf env options) c).isSome
        · rfl
        · exact absurd h hi
      refine ⟨Or.inr (hmem_unres.mpr hi2), ?_⟩
      rintro ⟨hr, _⟩
      rw [hmem_res] at hr
      rw [hi2] at hr
      cases hr

/-- C2 (witness): a two-candidate list with distinct ids under the
empty-result providers partitions exactly. -/
theorem claim2_witness :
    (resolveLiteratureReferences failBothEnv [witCandidateA, witCandidateB] none).resolved.length +
      (resolveLiteratureReferences failBothEnv [witCandidateA, witCandidateB] none).unresolved.length =
      (scopedOf [witCandidateA, witCandidateB] none).length :=
  (claim2_partition_amended failBothEnv [witCandidateA, witCandidateB] none (by decide)).1

/-- C6: when Semantic Scholar returns a hit for a (truncation-surviving)
candidate's query, the mapped item — tagged `semantic-scholar` and matched to
that candidate — is appended to `resolved`, and no Crossref query is ever
issued for that candidate. -/
theorem claim6_provider_ordering (env : ResolverEnv) (citations : List CitationCandidate)
    (options : Option ResolveOptions) (c : CitationCandidate) (rec : SSRecord)
    (hc : c ∈ scopedOf citations options)
    (hss : env.fetchSS (buildQueryFromCitation c) = Except.ok (some rec)) :
    mapSemanticScholar rec (buildQueryFromCitation c) c env.uuidv ∈
      (resolveLiteratureReferences env citations options).resolved ∧
    (mapSemanticScholar rec (buildQueryFromCitation c) c env.uuidv).source =
      LiteratureSource.semanticScholar ∧
    (mapSemanticScholar rec (buildQueryFromCitation c) c env.uuidv).matchedCitation = c ∧
    ∀ e ∈ (resolveLiteratureReferencesAux env citations options).2, e.2 ≠ c := by
  have hone : resolveOne env (apiKeyOf env options) c =
      some (mapSemanticScholar rec (buildQueryFromCitation c) c env.uuidv) := by
    simp [resolveOne, querySemanticScholar, hss]
  refine ⟨?_, rfl, rfl, ?_⟩
  · unfold resolveLiteratureReferences
    rw [resolveAux_closedForm]
    exact List.mem_filterMap.mpr ⟨c, hc, hone⟩
  · rw [resolveAux_closedForm]
    intro e he
    obtain ⟨c2, hc2, hcall⟩ := List.mem_filterMap.mp he
    intro heq
    unfold crCallOf at hcall
    by_cases hhit : ssHit env (apiKeyOf env options) c2 = true
    · rw [if_pos hhit] at hcall
      cases hcall
    · rw [if_neg hhit] at hcall
      have hc2c : c2 = c := by
        rw [← heq]
        exact congrArg Prod.snd (Option.some.inj hcall)
      apply hhit
      rw [hc2c]
      simp [ssHit, querySemanticScholar, hss]

/-- C6 (witness): a candidate resolved by the always-hitting Semantic Scholar
oracle appears in `resolved`. -/
theorem claim6_witness :
    mapSemanticScholar ssOnlyRecord (buildQueryFromCitation witCandidateA) witCandidateA
      (str "u") ∈ (resolveLiteratureReferences ssHitEnv [witCandidateA] none).resolved :=
  (claim6_provider_ordering ssHitEnv [witCandidateA] none witCandidateA ssOnlyRecord
    (by decide) rfl).1

/-- C7: when both providers fail for a (truncation-surviving) candidate —
a thrown error or an empty/non-ok result — that candidate lands in
`unresolved`, never in `resolved` (given distinct ids), and every other
candidate's own successful resolution still reaches `resolved`; the failures
are caught inside the resolver, which stays a total function. -/
theorem claim7_failure_containment (env : ResolverEnv) (citations : List CitationCandidate)
    (options : Option ResolveOptions) (c : CitationCandidate)
    (hc : c ∈ scopedOf citations options)
    (hnd : ((scopedOf citations options).map (fun c2 => c2.id)).Nodup)
    (hssf : ∀ rec : SSRecord, env.fetchSS (buildQueryFromCitation c) ≠ Except.ok (some rec))
    (hcrf : ∀ rec : CRRecord, env.fetchCR (buildQueryFromCitation c) ≠ Except.ok (some rec)) :
    c ∈ (resolveLiteratureReferences env citations options).unresolved ∧
    (∀ r ∈ (resolveLiteratureReferences env citations options).resolved,
      r.matchedCitation.id ≠ c.id) ∧
    (∀ c2 ∈ scopedOf citations options, ∀ r,
      resolveOne env (apiKeyOf env options) c2 = some r →
      r ∈ (resolveLiteratureReferences env citations options).resolved) := by
  obtain ⟨hres, hunres⟩ := resolveRefs_spec env citations options hnd
  have hinj := List.inj_on_of_nodup_map hnd
  have hnone : resolveOne env (apiKeyOf env options) c = none := by
    unfold resolveOne
    cases hss : env.fetchSS (buildQueryFromCitation c) with
    | error e =>
      cases hcr : env.fetchCR (buildQueryFromCitation c) with
      | error e2 => simp [querySemanticScholar, queryCrossref, hss, hcr]
      | ok o =>
        cases o with
        | none => simp [querySemanticScholar, queryCrossref, hss, hcr]
        | some rec => exact absurd hcr (hcrf rec)
    | ok o =>
      cases o with
      | none =>
        cases hcr : env.fetchCR (buildQueryFromCitation c) with
        | error e2 => simp [querySemanticScholar, queryCrossref, hss, hcr]
        | ok o2 =>
          cases o2 with
          | none => simp [querySemanticScholar, queryCrossref, hss, hcr]
          | some rec => exact absurd hcr (hcrf rec)
      | some rec => exact absurd hss (hssf rec)
  refine ⟨?_, ?_, ?_⟩
  · rw [hunres]
    exact List.mem_filter.mpr ⟨hc, by simp [hnone]⟩
  · intro r hr
    rw [hres] at hr
    obtain ⟨c2, hc2, hone⟩ := List.mem_filterMap.mp hr
    have hmc := resolveOne_matchedCitation env (apiKeyOf env options) c2 r hone
    rw [hmc]
    intro hid
    have hceq : c2 = c := hinj hc2 hc hid
    rw [hceq, hnone] at hone
    cases hone
  · intro c2 hc2 r hone
    rw [hres]
    exact List.mem_filterMap.mpr ⟨c2, hc2, hone⟩

/-- C7 (witness): under providers that throw, the candidate lands in
`unresolved`. -/
theorem claim7_witness :
    witCandidateB ∈ (resolveLiteratureReferences failThrowEnv [witCandidateB] none).unresolved :=
  (claim7_failure_containment failThrowEnv [witCandidateB] none witCandidateB
    (by decide) (by decide)
    (fun rec h => by simp [failThrowEnv] at h)
    (fun rec h => by simp [failThrowEnv] at h)).1

theorem buildQuery_ne_nil (c : CitationCandidate) (h : c.rawText ≠ []) :
    buildQueryFromCitation c ≠ [] := by
  unfold buildQueryFromCitation
  split_ifs with h1 h2
  · cases hg : c.titleGuess with
    | none => rw [hg] at h1; simp [truthyS] at h1
    | some t =>
      rw [hg] at h1
      simp only [truthyS, ne_eq, decide_eq_true_eq] at h1
      simpa [hg] using h1
  · simp
  · cases hr : c.rawText with
    | nil => exact absurd hr h
    | cons a t => simp [hr]

/-- C9 (counterexample): when the matched Semantic Scholar record carries a
PRESENT but EMPTY title, the resolved item's title is the empty string —
`first.title ?? query` only substitutes for null/undefined, not for `""` —
refuting "no resolved item is ever titleless". -/
theorem claim9_counterexample :
    ((resolveLiteratureReferences emptyTitleEnv [witCandidateC] none).resolved.map
      (fun r => r.title)) = [[]] ∧
    (resolveLiteratureReferences emptyTitleEnv [witCandidateC] none).resolved.length = 1 := by
  constructor
  · decide
  · decide

/-- C9 (amended): provided every title a provider reports is nonempty (as a
string — `""` slips through the `??` fallback) and every candidate has a
nonempty raw text and no empty guessed title, every resolved item's title is
nonempty: an ABSENT provider title is replaced by the candidate's query
(guessed title, else journal+year, else raw text truncated to 240), which is
then nonempty. -/
theorem claim9_title_amended (env : ResolverEnv) (citations : List CitationCandidate)
    (options : Option ResolveOptions)
    (hss : ∀ (q : Str) (rec : SSRecord), env.fetchSS q = Except.ok (some rec) →
      ∀ t, rec.title = some t → t ≠ [])
    (hcr : ∀ (q : Str) (rec : CRRecord), env.fetchCR q = Except.ok (some rec) →
      ∀ ts, rec.title = some ts → ∀ t ∈ ts, t ≠ [])
    (hcand : ∀ c ∈ scopedOf citations options,
      c.rawText ≠ [] ∧ ∀ t, c.titleGuess = some t → t ≠ []) :
    ∀ r ∈ (resolveLiteratureReferences env citations options).resolved, r.title ≠ [] := by
  intro r hr
  unfold resolveLiteratureReferences at hr
  rw [resolveAux_closedForm] at hr
  obtain ⟨c, hc, hone⟩ := List.mem_filterMap.mp hr
  obtain ⟨hraw, hguess⟩ := hcand c hc
  have hq := buildQuery_ne_nil c hraw
  cases hssR : env.fetchSS (buildQueryFromCitation c) with
  | ok o =>
    cases o with
    | some rec =>
      simp only [resolveOne, querySemanticScholar, hssR] at hone
      rw [← Option.some.inj hone]
      simp only [mapSemanticScholar]
      cases ht : rec.title with
      | some t => simpa [ht] using hss (buildQueryFromCitation c) rec hssR t ht
      | none => simpa [ht] using hq
    | none =>
      cases hcrR : env.fetchCR (buildQueryFromCitation c) with
      | ok o2 =>
        cases o2 with
        | some rec =>
          simp only [resolveOne, querySemanticScholar, queryCrossref, hssR, hcrR] at hone
          rw [← Option.some.inj hone]
          simp only [mapCrossref]
          cases ht : rec.title with
          | some ts =>
            cases ts with
            | nil =>
              simp only [ht]
              cases hg : c.titleGuess with
              | some t => simpa [hg] using hguess t hg
              | none => simpa [hg] using hq
            | cons t ts2 =>
              simpa [ht] using hcr (buildQueryFromCitation c) rec hcrR (t :: ts2) ht t (by simp)
          | none =>
            simp only [ht]
            cases hg : c.titleGuess with
            | some t => simpa [hg] using hguess t hg
            | none => simpa [hg] using hq
        | none =>
          simp only [resolveOne, querySemanticScholar, queryCrossref, hssR, hcrR] at hone
          exact Option.noConfusion hone
      | error e =>
        simp only [resolveOne, querySemanticScholar, queryCrossref, hssR, hcrR] at hone
        exact Option.noConfusion hone
  | error e =>
    cases hcrR : env.fetchCR (buildQueryFromCitation c) with
    | ok o2 =>
      cases o2 with
      | some rec =>
        simp only [resolveOne, querySemanticScholar, queryCrossref, hssR, hcrR] at hone
        rw [← Option.some.inj hone]
        simp only [mapCrossref]
        cases ht : rec.title with
        | some ts =>
          cases ts with
          | nil =>
            simp only [ht]
            cases hg : c.titleGuess with
            | some t => simpa [hg] using hguess t hg
            | none => simpa [hg] using hq
          | cons t ts2 =>
            simpa [ht] using hcr (buildQueryFromCitation c) rec hcrR (t :: ts2) ht t (by simp)
        | none =>
          simp only [ht]
          cases hg : c.titleGuess with
          | some t => simpa [hg] using hguess t hg
          | none => simpa [hg] using hq
      | none =>
        simp only [resolveOne, querySemanticScholar, queryCrossref, hssR, hcrR] at hone
        exact Option.noConfusion hone
    | error e2 =>
      simp only [resolveOne, querySemanticScholar, queryCrossref, hssR, hcrR] at hone
      exact Option.noConfusion hone

/-- C9 (witness): with a nonempty provider title the resolved item's title is
nonempty. -/
theorem claim9_witness :
    mapSemanticScholar titledRecord (buildQueryFromCitation witCandidateC) witCandidateC
      (str "u") ∈ (resolveLiteratureReferences titledEnv [witCandidateC] none).resolved ∧
    (mapSemanticScholar titledRecord (buildQueryFromCitation witCandidateC) witCandidateC
      (str "u")).title ≠ [] :=
  ⟨by decide,
   claim9_title_amended titledEnv [witCandidateC] none
    (fun q rec hq t ht => by
      simp only [titledEnv] at hq
      have hrec := Option.some.inj (Except.ok.inj hq)
      rw [← hrec] at ht
      have := Option.some.inj ht
      rw [← this]
      simp [titledRecord, str])
    (fun q rec hq => by simp [titledEnv] at hq)
    (fun c hc => by
      have hm : c ∈ [witCandidateC] := List.mem_of_mem_take hc
      have : c = witCandidateC := by simpa using hm
      subst this
      exact ⟨by simp [witCandidateC, str], fun t ht => by simp [witCandidateC] at ht⟩)
    (mapSemanticScholar titledRecord (buildQueryFromCitation witCandidateC) witCandidateC
      (str "u"))
    (by decide)⟩

/-- C1 (counterexample): a comparison-report request that passes the
existence and access checks but names a document the case does not have is
answered 404 AFTER the `processing` transition, with no reset — the case is
left in `processing` when the handler completes. -/
theorem claim1_counterexample :
    ((comparisonReportHandler okOrchEnv wUser (some wCaseIdle) [] wPayloadAB).finalCase.map
      (fun r => r.app_state)) = some AppState.processing ∧
    (comparisonReportHandler okOrchEnv wUser (some wCaseIdle) [] wPayloadAB).status = 404 := by
  constructor
  · decide
  · decide

/-- C1 (amended): every report request that passes the existence and access
checks commits `processing` before any external call.  An initial-report
request always completes with the case in `idle` or `error`; a
comparison-report request does so EXCEPT on its two post-transition
validation failures — a named document missing (404) or without extracted
text (400) — which leave the case in `processing`. -/
theorem claim1_state_machine_amended :
    (∀ (env : OrchestratorEnv) (user : JwtUserPayload) (caseRow : CaseDbRow)
        (documents : List CaseDocument), canAccessCase user caseRow = true →
      ((initialReportHandler env user (some caseRow) documents).finalCase.map
          (fun r => r.app_state) = some AppState.idle ∨
       (initialReportHandler env user (some caseRow) documents).finalCase.map
          (fun r => r.app_state) = some AppState.error) ∧
      processingBeforeCalls (initialReportHandler env user (some caseRow) documents).trace) ∧
    (∀ (env : OrchestratorEnv) (user : JwtUserPayload) (caseRow : CaseDbRow)
        (documents : List CaseDocument) (payload : ComparisonReportRequest),
      canAccessCase user caseRow = true →
      truthyS payload.reportAId = true → truthyS payload.reportBId = true →
      processingBeforeCalls
        (comparisonReportHandler env user (some caseRow) documents payload).trace ∧
      ((comparisonReportHandler env user (some caseRow) documents payload).finalCase.map
          (fun r => r.app_state) = some AppState.idle ∨
       (comparisonReportHandler env user (some caseRow) documents payload).finalCase.map
          (fun r => r.app_state) = some AppState.error ∨
       ((comparisonReportHandler env user (some caseRow) documents payload).finalCase.map
          (fun r => r.app_state) = some AppState.processing ∧
        ((comparisonReportHandler env user (some caseRow) documents payload).status = 404 ∨
         (comparisonReportHandler env user (some caseRow) documents payload).status = 400)))) := by
  constructor
  · intro env user caseRow documents hacc
    unfold initialReportHandler
    simp only [hacc, Bool.not_true, Bool.false_eq_true, if_false]
    cases hA : env.callAI (initialGenRequest env caseRow documents) with
    | error err =>
      refine ⟨Or.inr rfl, ?_⟩
      simp only [reportPreTrace, List.cons_append, List.nil_append]
      exact processingBeforeCalls_cons _
    | ok reportText =>
      cases hP : env.persistOk with
      | true =>
        refine ⟨Or.inl (by simp [hP]), ?_⟩
        simp only [hP, if_true, reportPreTrace, List.cons_append, List.nil_append]
        exact processingBeforeCalls_cons _
      | false =>
        refine ⟨Or.inr (by simp [hP]), ?_⟩
        simp only [hP, Bool.false_eq_true, if_false, reportPreTrace, List.cons_append,
          List.nil_append]
        exact processingBeforeCalls_cons _
  · intro env user caseRow documents payload hacc hA hB
    unfold comparisonReportHandler
    simp only [hacc, hA, hB, Bool.not_true, Bool.false_or, Bool.or_self, Bool.false_eq_true,
      if_false]
    cases hFA : documents.find? (fun d => d.id = payload.reportAId.getD []) with
    | none =>
      refine ⟨processingBeforeCalls_cons _, ?_⟩
      simp
    | some docA =>
      cases hFB : documents.find? (fun d => d.id = payload.reportBId.getD []) with
      | none =>
        refine ⟨processingBeforeCalls_cons _, ?_⟩
        simp
      | some docB =>
        by_cases hT : (!truthyS (payload.reportAText <|> docA.extractedText) ||
            !truthyS (payload.reportBText <|> docB.extractedText)) = true
        · simp only [hT, if_true]
          refine ⟨processingBeforeCalls_cons _, ?_⟩
          simp
        · simp only [hT, Bool.false_eq_true, if_false]
          cases hAI : env.callAI (comparisonGenRequest env caseRow docA docB
              (payload.reportAText <|> docA.extractedText)
              (payload.reportBText <|> docB.extractedText)) with
          | error err =>
            refine ⟨?_, ?_⟩
            · simp only [reportPreTrace, List.cons_append, List.nil_append]
              exact processingBeforeCalls_cons _
            · simp
          | ok comparisonText =>
            cases hP : env.persistOk with
            | true =>
              refine ⟨?_, ?_⟩
              · simp only [hP, if_true, reportPreTrace, List.cons_append, List.nil_append]
                exact processingBeforeCalls_cons _
              · simp [hP]
            | false =>
              refine ⟨?_, ?_⟩
              · simp only [hP, Bool.false_eq_true, if_false, reportPreTrace, List.cons_append,
                  List.nil_append]
                exact processingBeforeCalls_cons _
              · simp [hP]

/-- C1 (witness): a successful initial-report run on a concrete case ends
`idle` or `error`. -/
theorem claim1_witness :
    (initialReportHandler okOrchEnv wUser (some wCaseIdle) []).finalCase.map
      (fun r => r.app_state) = some AppState.idle ∨
    (initialReportHandler okOrchEnv wUser (some wCaseIdle) []).finalCase.map
      (fun r => r.app_state) = some AppState.error :=
  (claim1_state_machine_amended.1 okOrchEnv wUser wCaseIdle [] (by decide)).1

/-- C4: if the text-generation call throws during an initial-report request
that passed the existence and access checks, the handler leaves the case in
`error`, the response is a 500 whose body carries a `message` field, and the
case's `initial_report` column still holds its prior value. -/
theorem claim4_generation_error (env : OrchestratorEnv) (user : JwtUserPayload)
    (caseRow : CaseDbRow) (documents : List CaseDocument) (msg : Str)
    (hacc : canAccessCase user caseRow = true)
    (hai : ∀ req, env.callAI req = Except.error msg) :
    (initialReportHandler env user (some caseRow) documents).finalCase =
      some { caseRow with app_state := AppState.error } ∧
    jsonHasField (initialReportHandler env user (some caseRow) documents).body
      (str "message") = true ∧
    (initialReportHandler env user (some caseRow) documents).finalCase.map
      (fun r => r.initial_report) = some caseRow.initial_report ∧
    (initialReportHandler env user (some caseRow) documents).status = 500 := by
  unfold initialReportHandler
  simp only [hacc, Bool.not_true, Bool.false_eq_true, if_false,
    hai (initialGenRequest env caseRow documents)]
  simp [jsonHasField]

/-- C4 (witness): concrete run with a throwing generation oracle. -/
theorem claim4_witness :
    (initialReportHandler genFailOrchEnv wUser (some wCaseIdle) []).finalCase =
      some { wCaseIdle with app_state := AppState.error } ∧
    jsonHasField (initialReportHandler genFailOrchEnv wUser (some wCaseIdle) []).body
      (str "message") = true ∧
    (initialReportHandler genFailOrchEnv wUser (some wCaseIdle) []).finalCase.map
      (fun r => r.initial_report) = some wCaseIdle.initial_report ∧
    (initialReportHandler genFailOrchEnv wUser (some wCaseIdle) []).status = 500 :=
  claim4_generation_error genFailOrchEnv wUser wCaseIdle [] (str "AI call failed")
    (by decide) (fun req => rfl)

/-- C10: deleting an existing document of an accessible case sets the case's
state to `idle` exactly when it was `processing`, and leaves it unchanged
otherwise; the endpoint answers 204. -/
theorem claim10_delete_state (user : JwtUserPayload) (caseRow : CaseDbRow)
    (documents : List CaseDocument) (docId : Str)
    (hacc : canAccessCase user caseRow = true)
    (hdoc : (documents.find? (fun d => d.id = docId)).isSome = true) :
    (deleteDocumentHandler user (some caseRow) documents docId).finalCase =
      some { caseRow with app_state :=
        if caseRow.app_state = AppState.processing then AppState.idle
        else caseRow.app_state } ∧
    (deleteDocumentHandler user (some caseRow) documents docId).status = 204 := by
  unfold deleteDocumentHandler
  obtain ⟨d, hd⟩ := Option.isSome_iff_exists.mp hdoc
  simp only [hacc, Bool.not_true, Bool.false_eq_true, if_false, hd]
  by_cases hp : caseRow.app_state = AppState.processing
  · simp [hp]
  · simp [hp]

/-- C10 (witness): deleting a document of a `processing` case. -/
theorem claim10_witness :
    (deleteDocumentHandler wUser (some wCaseProcessing) [wDocument] (str "docA")).finalCase =
      some { wCaseProcessing with app_state :=
        if wCaseProcessing.app_state = AppState.processing then AppState.idle
        else wCaseProcessing.app_state } ∧
    (deleteDocumentHandler wUser (some wCaseProcessing) [wDocument] (str "docA")).status = 204 :=
  claim10_delete_state wUser wCaseProcessing [wDocument] (str "docA") (by decide) (by decide)
